import Mathlib

/-!
Shallow embedding of the PostCodeMon core (src/py/PostCodeMon/core) used to
check the specification claims about `ToolWrapper`, `ProcessManager` and
`ConfigManager`.

Conventions of the embedding:
* Python machine-level effects (spawning a process, probing a PID with
  psutil, testing whether a path exists on disk) are passed in as explicit
  environment functions, so every definition is a pure, executable function
  of its inputs.
* Python exceptions become an explicit error type `PyExc`; a function that
  can raise returns `Except PyExc _`.
* Python `int` is `Int`, Python `float` durations are `Rat` (the code only
  ever produces the exact literal `0.0` on the paths the claims talk about),
  Python lists are `List`, Python dicts are insertion-ordered association
  lists `List (String × _)`.
* Python string formatting with single quotes is reproduced with the helper
  `q` below, so messages match the source texts character for character.
-/

namespace PostCodeMon

/-- A single quote character, used by the source's f-strings such as
`f"Tool '{tool_name}' ..."`. -/
def sq : String := String.singleton (Char.ofNat 39)

/-- Wrap a string in single quotes, as Python f-strings in the source do. -/
def q (s : String) : String := sq ++ s ++ sq

/-- Python `str` of a list of strings, e.g. `['a', 'b']`; used because
`ValidationError` is constructed with `value=str(args)` in wrapper.py. -/
def pyListRepr (xs : List String) : String :=
  "[" ++ String.intercalate ", " (xs.map q) ++ "]"

/-- `ProcessResult` from process.py: the value produced by one execution
attempt (return code, captured stdout/stderr, wall-clock duration, rendered
command line, tool name). -/
structure ProcessResult where
  return_code : Int
  stdout : String
  stderr : String
  duration : Rat
  command : String
  tool_name : String
deriving DecidableEq, Repr

/-- `ProcessResult.success` is derived as `return_code == 0` in process.py. -/
def ProcessResult.success (r : ProcessResult) : Bool := r.return_code == 0

/-- The exceptions that can cross the boundaries the claims talk about.
The first five mirror errors.py; `attributeError` models Python's built-in
`AttributeError` (raised when reading an attribute an object does not have);
`otherError` stands for any further exception type. -/
inductive PyExc where
  | toolExecutionError (message : String) (return_code : Int) (stderr : String)
  | configurationError (message : String)
  | toolNotFoundError (tool_path : String) (search_paths : List String)
  | validationError (message : String) (field : Option String) (value : Option String)
  | timeoutError (timeout_seconds : Int)
  | attributeError (message : String)
  | otherError (message : String)
deriving DecidableEq, Repr

/-- The caught-exception set of the retry loop in wrapper.py:
`except (ToolExecutionError, ToolNotFoundError)`. -/
def PyExc.retryable : PyExc → Bool
  | .toolExecutionError _ _ _ => true
  | .toolNotFoundError _ _ => true
  | _ => false

def PyExc.isValidationError : PyExc → Bool
  | .validationError _ _ _ => true
  | _ => false

/-- The `field` attribute of a `ValidationError`, `none` for other kinds. -/
def PyExc.vfield : PyExc → Option String
  | .validationError _ f _ => f
  | _ => none

/-- The `value` attribute of a `ValidationError`, `none` for other kinds. -/
def PyExc.vvalue : PyExc → Option String
  | .validationError _ _ v => v
  | _ => none

/-- Python `str(e)`: the message each constructor in errors.py passes to
`Exception.__init__` (for `attributeError`/`otherError`, their own text). -/
def PyExc.message : PyExc → String
  | .toolExecutionError m _ _ => m
  | .configurationError m => m
  | .toolNotFoundError p sp =>
      "Tool not found: " ++ p ++
        (if sp.isEmpty then "" else ". Searched in: " ++ String.intercalate ", " sp)
  | .validationError m _ _ => m
  | .timeoutError t => "Tool execution timed out after " ++ toString t ++ " seconds"
  | .attributeError m => m
  | .otherError m => m

/-- One entry of `ToolConfig.validation_rules` (a YAML dict keyed by rule
name; wrapper.py interprets the keys `required_args` and `file_exists` and
ignores every other key). -/
inductive VRule where
  | required_args (args : List String)
  | file_exists (indices : List Nat)
  | other (name : String)
deriving DecidableEq, Repr

/-- `ToolConfig` from config.py, with the dataclass defaults. Note that the
dataclass defines NO `retry_wait_seconds` field, although wrapper.py line 254
reads one; the embedding reproduces that mismatch faithfully. -/
structure ToolConfig where
  name : String
  executable_path : String
  default_args : List String := []
  timeout_seconds : Int := 300
  retry_attempts : Nat := 3
  environment_vars : List (String × String) := []
  validation_rules : List VRule := []
  working_directory : Option String := none
deriving DecidableEq, Repr

/-- `LoggingConfig` from config.py with its dataclass defaults. -/
structure LoggingConfig where
  level : String := "INFO"
  format : String := "%(asctime)s - %(name)s - %(levelname)s - %(message)s"
  file_path : Option String := none
  max_file_size : Int := 10485760
  backup_count : Int := 5
  json_format : Bool := false
  remote_endpoint : Option String := none
deriving DecidableEq, Repr

/-- `WrapperConfig` from config.py with its dataclass defaults.
`profiles` maps a profile name to a partial-config overlay (modelled as a
string-keyed association list, enough for the claims, which never read it). -/
structure WrapperConfig where
  tools : List (String × ToolConfig) := []
  logging : LoggingConfig := {}
  profiles : List (String × List (String × String)) := []
  global_timeout : Int := 600
  max_concurrent_jobs : Int := 10
  temp_directory : Option String := none
  monitoring_enabled : Bool := false
  metrics_endpoint : Option String := none
deriving DecidableEq, Repr

/-- `ConfigManager.get_tool_config`: dictionary lookup in `config.tools`. -/
def getToolConfig (cfg : WrapperConfig) (toolName : String) : Option ToolConfig :=
  (cfg.tools.find? (fun p => p.1 == toolName)).map Prod.snd

/-- `ToolWrapper.validate_tool_config`: the tool must be configured and have
a non-empty `executable_path` (Python truthiness of the string). -/
def validateToolConfig (cfg : WrapperConfig) (toolName : String) :
    Except PyExc ToolConfig :=
  match getToolConfig cfg toolName with
  | none =>
      .error (.configurationError
        ("Tool " ++ q toolName ++ " is not configured. Available tools: " ++
          pyListRepr (cfg.tools.map Prod.fst)))
  | some tc =>
      if tc.executable_path = "" then
        .error (.configurationError
          ("Tool " ++ q toolName ++ " has no executable_path configured"))
      else .ok tc

/-- One pass of the rule loop body in `validate_arguments`: `some e` when the
rule raises, `none` when it passes.  `required_args` raises on the first
entry not literally contained in the caller args; `file_exists` raises on the
first listed index that is in range and whose argument is not an existing
path (out-of-range indices are skipped by the `idx < len(args)` guard). -/
def checkRule (toolName : String) (args : List String) (fs : String → Bool) :
    VRule → Option PyExc
  | .required_args req =>
      match req.find? (fun r => !(args.contains r)) with
      | some r =>
          some (.validationError
            ("Required argument " ++ q r ++ " missing for tool " ++ q toolName)
            (some "args") (some (pyListRepr args)))
      | none => none
  | .file_exists indices =>
      match indices.find? (fun i => decide (i < args.length) && !(fs (args.getD i ""))) with
      | some i =>
          some (.validationError ("File does not exist: " ++ args.getD i "")
            (some "file_path") (some (args.getD i "")))
      | none => none
  | .other _ => none

/-- The rule loop of `validate_arguments`: rules run in dictionary
(insertion) order and the first failing rule raises. -/
def checkRules (toolName : String) (args : List String) (fs : String → Bool) :
    List VRule → Option PyExc
  | [] => none
  | r :: rs =>
      match checkRule toolName args fs r with
      | some e => some e
      | none => checkRules toolName args fs rs

/-- `ToolWrapper.validate_arguments`: re-validates the tool config, applies
the validation rules to the caller-supplied args, then returns the configured
default arguments followed by the caller arguments.  `fs` is the
`os.path.exists` oracle. -/
def validateArguments (cfg : WrapperConfig) (toolName : String)
    (args : List String) (fs : String → Bool) : Except PyExc (List String) := do
  let tc ← validateToolConfig cfg toolName
  match checkRules toolName args fs tc.validation_rules with
  | some e => .error e
  | none => .ok (tc.default_args ++ args)

/-- Python `a or b` on integers: `a` unless it is falsy (`0`). -/
def pyOrInt (a b : Int) : Int := if a ≠ 0 then a else b

/-- `effective_timeout = timeout or tool_config.timeout_seconds or
self.config.global_timeout` (wrapper.py line 165).  `none` models a missing
`timeout` argument; both `none` and `some 0` are falsy. -/
def effectiveTimeout (explicit : Option Int) (toolTimeout globalTimeout : Int) : Int :=
  match explicit with
  | some t => if t ≠ 0 then t else pyOrInt toolTimeout globalTimeout
  | none => pyOrInt toolTimeout globalTimeout

/-- `effective_tool_name = tool_name or self.tool_name` (string truthiness:
`""` falls through to the wrapper's default tool). -/
def effectiveToolName (toolName selfToolName : Option String) : Option String :=
  match toolName with
  | some s => if s ≠ "" then some s else selfToolName
  | none => selfToolName

/-- The rendered command used for logging and for the dry-run result:
`f"{tool_config.executable_path} {' '.join(final_args)}"`. -/
def commandPreview (tc : ToolConfig) (finalArgs : List String) : String :=
  tc.executable_path ++ " " ++ String.intercalate " " finalArgs

/-- `ProcessResult.raise_for_status` applied to an attempt's result:
a non-zero return code becomes a `ToolExecutionError` (wrapper.py calls this
inside the retry loop whenever `result.success` is false). -/
def checkSuccess (r : ProcessResult) : Except PyExc ProcessResult :=
  if r.success then .ok r
  else
    .error (.toolExecutionError
      ("Tool " ++ q r.tool_name ++ " failed with return code " ++ toString r.return_code)
      r.return_code r.stderr)

/-- The message of the exception synthesized when the retry loop exhausts
without a captured exception (wrapper.py lines 282-286). -/
def exhaustedMessage (toolName : String) (total : Nat) : String :=
  "Tool " ++ q toolName ++ " failed after " ++ toString total ++ " attempts"

/-- The `AttributeError` produced by wrapper.py line 254, which reads
`tool_config.retry_wait_seconds` although the `ToolConfig` dataclass in
config.py defines no such field. -/
def retryWaitAttributeError : PyExc :=
  .attributeError (q "ToolConfig" ++ " object has no attribute " ++ q "retry_wait_seconds")

instance {ε α : Type} [DecidableEq ε] [DecidableEq α] : DecidableEq (Except ε α) := fun x y =>
  match x, y with
  | .ok a, .ok b =>
      if h : a = b then .isTrue (by rw [h]) else .isFalse (by simp [h])
  | .error a, .error b =>
      if h : a = b then .isTrue (by rw [h]) else .isFalse (by simp [h])
  | .ok _, .error _ => .isFalse (by simp)
  | .error _, .ok _ => .isFalse (by simp)

/-- Outcome of one `ToolWrapper.execute_tool` call: the returned value or the
propagated exception, together with the number of calls made to
`ProcessManager.execute_tool` (i.e. the number of execution attempts /
process spawns). -/
structure ExecOutcome where
  outcome : Except PyExc ProcessResult
  attempts : Nat
deriving DecidableEq, Repr

/-- The loop body of the retry loop (wrapper.py lines 201-279) at iteration
`i` of `range(total)`.  `att i timeout` is the environment's answer to the
`i`-th `ProcessManager.execute_tool` call.

Transcription of the body:
* the attempt returning a result with zero return code returns it;
* a non-zero return code is turned into a `ToolExecutionError` by
  `raise_for_status` and lands in the `except` clause like a raised one;
* a caught `ToolExecutionError`/`ToolNotFoundError` with `attempt <
  retry_attempts - 1` executes `wait_time = tool_config.retry_wait_seconds`
  (line 254) first, which raises `AttributeError` because the dataclass has
  no such field, so the handler never reaches `time.sleep` and the next
  iteration never runs;
* a caught retryable exception on the last iteration is re-raised;
* any other exception propagates out of the loop immediately. -/
def attemptStep (att : Nat → Int → Except PyExc ProcessResult) (timeoutValue : Int)
    (total i : Nat) : ExecOutcome :=
  match (att i timeoutValue).bind checkSuccess with
  | .ok res => { outcome := .ok res, attempts := i + 1 }
  | .error e =>
      if e.retryable then
        if i < total - 1 then
          { outcome := .error retryWaitAttributeError, attempts := i + 1 }
        else
          { outcome := .error e, attempts := i + 1 }
      else
        { outcome := .error e, attempts := i + 1 }

/-- The whole retry loop.  Because every branch of the body returns or
raises (see `attemptStep`), at most iteration 0 ever executes; with
`total = 0` the loop body never runs, `last_exception` is still `None`, and
the synthesized `ToolExecutionError(-1, "Unknown error")` of lines 282-286
is raised. -/
def runAttempts (att : Nat → Int → Except PyExc ProcessResult) (timeoutValue : Int)
    (toolName : String) (total : Nat) : ExecOutcome :=
  if total = 0 then
    { outcome := .error (.toolExecutionError (exhaustedMessage toolName total)
        (-1) "Unknown error"),
      attempts := 0 }
  else
    attemptStep att timeoutValue total 0

/-- `ToolWrapper.execute_tool` (wrapper.py lines 127-286).

Environment parameters: `att i t` is the outcome of the `i`-th
`ProcessManager.execute_tool` call when passed effective timeout `t`
(a returned `ProcessResult` or a raised exception), and `fs` is the
`os.path.exists` oracle used by argument validation. -/
def executeTool (cfg : WrapperConfig) (selfToolName : Option String)
    (toolName : Option String) (args : Option (List String))
    (explicitTimeout : Option Int) (dryRun : Bool)
    (att : Nat → Int → Except PyExc ProcessResult) (fs : String → Bool) :
    ExecOutcome :=
  match effectiveToolName toolName selfToolName with
  | none =>
      { outcome := .error (.configurationError
          "No tool name provided and no default tool configured"),
        attempts := 0 }
  | some name =>
      if name = "" then
        { outcome := .error (.configurationError
            "No tool name provided and no default tool configured"),
          attempts := 0 }
      else
        match validateToolConfig cfg name with
        | .error e => { outcome := .error e, attempts := 0 }
        | .ok tc =>
            match validateArguments cfg name (args.getD []) fs with
            | .error e => { outcome := .error e, attempts := 0 }
            | .ok finalArgs =>
                let timeoutValue :=
                  effectiveTimeout explicitTimeout tc.timeout_seconds cfg.global_timeout
                let preview := commandPreview tc finalArgs
                if dryRun then
                  { outcome := .ok
                      { return_code := 0
                        stdout := "DRY RUN: " ++ preview
                        stderr := ""
                        duration := 0
                        command := preview
                        tool_name := name },
                    attempts := 0 }
                else
                  runAttempts att timeoutValue name tc.retry_attempts

/-! ### Batch execution (`ToolWrapper.execute_batch`, wrapper.py 288-378) -/

/-- The result `execute_single` hands back for item `i`:
`itemExec i` is the outcome of the `self.execute_tool(tool_name, args)` call
for that item (each item is an independent call, so the environment indexes
outcomes by item); any exception is converted to a failed `ProcessResult`
with return code `-1`, the exception text in stderr, zero duration and the
command rendered as `f"{tool_name} {' '.join(args)}"`. -/
def batchItemResult (itemExec : Nat → Except PyExc ProcessResult)
    (toolName : String) (batchArgs : List (List String)) (i : Nat) : ProcessResult :=
  match itemExec i with
  | .ok r => r
  | .error e =>
      { return_code := -1
        stdout := ""
        stderr := e.message
        duration := 0
        command := toolName ++ " " ++ String.intercalate " " (batchArgs.getD i [])
        tool_name := toolName }

/-- The `as_completed` loop: futures are consumed in completion order
`order` (a list of item indices), each completed item writes its result into
slot `index` of the results array; under `fail_fast` an unsuccessful result
stops the loop (remaining futures are cancelled and their slots stay
`none`). -/
def collectCompleted (itemExec : Nat → Except PyExc ProcessResult)
    (toolName : String) (batchArgs : List (List String)) (failFast : Bool) :
    List Nat → List (Option ProcessResult) → List (Option ProcessResult)
  | [], results => results
  | i :: rest, results =>
      let r := batchItemResult itemExec toolName batchArgs i
      let results' := results.set i (some r)
      if failFast && !r.success then results'
      else collectCompleted itemExec toolName batchArgs failFast rest results'

/-- `ToolWrapper.execute_batch`: `results = [None] * len(batch_args)`, the
completion loop fills slots by original index, and
`final_results = [r for r in results if r is not None]`. -/
def executeBatch (itemExec : Nat → Except PyExc ProcessResult)
    (toolName : String) (batchArgs : List (List String)) (order : List Nat)
    (failFast : Bool) : List ProcessResult :=
  (collectCompleted itemExec toolName batchArgs failFast order
      (List.replicate batchArgs.length none)).filterMap id

/-! ### Active process registry (`ProcessManager`, process.py 397-421) -/

/-- What `psutil.Process(pid)` reports for a live process; the probe returns
`none` when the process no longer exists (`psutil.NoSuchProcess`) or cannot
be inspected (`psutil.AccessDenied`) — process.py treats both identically. -/
structure ProcInfo where
  status : String
  cpu_percent : Rat
  memory_rss : Int
  create_time : Rat
deriving DecidableEq, Repr

/-- One entry of the dictionary `get_active_processes` returns. -/
structure ActiveInfo where
  pid : Nat
  tool_name : String
  status : String
  cpu_percent : Rat
  memory_mb : Rat
  create_time : Rat
deriving DecidableEq, Repr

/-- `key.split('_')[0]` from process.py. -/
def toolNameOfKey (k : String) : String := (k.splitOn "_").headD ""

/-- `ProcessManager.get_active_processes`: under the registry mutex, build a
snapshot by re-probing every registered pid, silently skipping entries whose
probe fails, then pop the stale keys from the registry.  The registry
(`active_processes`) is the dict from synthetic key `f"{tool}_{pid}"` to the
process handle, modelled by its key/pid pairs.  Returns the snapshot and the
cleaned-up registry. -/
def getActiveProcesses (registry : List (String × Nat))
    (probe : Nat → Option ProcInfo) :
    List (String × ActiveInfo) × List (String × Nat) :=
  let active := registry.filterMap (fun kp =>
    match probe kp.2 with
    | some info =>
        some (kp.1,
          { pid := kp.2
            tool_name := toolNameOfKey kp.1
            status := info.status
            cpu_percent := info.cpu_percent
            memory_mb := (info.memory_rss : Rat) / 1024 / 1024
            create_time := info.create_time })
    | none => none)
  let newRegistry := registry.filter (fun kp => active.any (fun a => a.1 == kp.1))
  (active, newRegistry)

/-! ### Configuration save / load (`ConfigManager`, config.py)

The YAML layer is modelled at the dictionary level: `yaml.dump` followed by
`yaml.safe_load` is the identity on the plain str/int/bool/list/dict/None
values the saved dictionary is built from, so a saved file is represented by
the dictionary `save_config` writes.  An `Option` field models presence of
the corresponding key (`_create_config_object` reads every key with `.get`
and a default). -/

/-- The per-tool dictionary under the `tools:` key of a configuration file. -/
structure ToolDict where
  executable_path : Option String := none
  default_args : Option (List String) := none
  timeout_seconds : Option Int := none
  retry_attempts : Option Nat := none
  environment_vars : Option (List (String × String)) := none
  validation_rules : Option (List VRule) := none
  working_directory : Option (Option String) := none
deriving DecidableEq, Repr

/-- The `logging:` dictionary of a configuration file. -/
structure LoggingDict where
  level : Option String := none
  format : Option String := none
  file_path : Option (Option String) := none
  max_file_size : Option Int := none
  backup_count : Option Int := none
  json_format : Option Bool := none
  remote_endpoint : Option (Option String) := none
deriving DecidableEq, Repr

/-- A whole configuration file as a dictionary. -/
structure ConfigDict where
  tools : Option (List (String × ToolDict)) := none
  logging : Option LoggingDict := none
  profiles : Option (List (String × List (String × String))) := none
  global_timeout : Option Int := none
  max_concurrent_jobs : Option Int := none
  temp_directory : Option (Option String) := none
  monitoring_enabled : Option Bool := none
  metrics_endpoint : Option (Option String) := none
deriving DecidableEq, Repr

/-- `_merge_configs` on two values under one key: recurse (`f`) when the key
is present in both and both values are dicts, otherwise the override layer's
value replaces the base layer's. -/
def mergeOptWith {α : Type} (f : α → α → α) : Option α → Option α → Option α
  | some b, some o => some (f b o)
  | some b, none => some b
  | none, o => o

/-- Python dict update used by the recursive merge on string-keyed dicts:
existing keys keep their position and take the override value, new keys are
appended in the override's order. -/
def mergeAList {α : Type} (f : α → α → α) (base override : List (String × α)) :
    List (String × α) :=
  (base.map (fun p =>
      match override.find? (fun o => o.1 == p.1) with
      | some o => (p.1, f p.2 o.2)
      | none => p)) ++
    override.filter (fun o => !(base.any (fun p => p.1 == o.1)))

/-- Deep merge of two per-tool dicts (field = key of the tool's dict;
the values under `environment_vars` and `validation_rules` are themselves
dicts, merged key-wise; scalar and list values are replaced). -/
def mergeToolDict (b o : ToolDict) : ToolDict where
  executable_path := mergeOptWith (fun _ x => x) b.executable_path o.executable_path
  default_args := mergeOptWith (fun _ x => x) b.default_args o.default_args
  timeout_seconds := mergeOptWith (fun _ x => x) b.timeout_seconds o.timeout_seconds
  retry_attempts := mergeOptWith (fun _ x => x) b.retry_attempts o.retry_attempts
  environment_vars :=
    mergeOptWith (mergeAList (fun _ x => x)) b.environment_vars o.environment_vars
  validation_rules := mergeOptWith (fun _ x => x) b.validation_rules o.validation_rules
  working_directory := mergeOptWith (fun _ x => x) b.working_directory o.working_directory

/-- Deep merge of two `logging:` dicts. -/
def mergeLoggingDict (b o : LoggingDict) : LoggingDict where
  level := mergeOptWith (fun _ x => x) b.level o.level
  format := mergeOptWith (fun _ x => x) b.format o.format
  file_path := mergeOptWith (fun _ x => x) b.file_path o.file_path
  max_file_size := mergeOptWith (fun _ x => x) b.max_file_size o.max_file_size
  backup_count := mergeOptWith (fun _ x => x) b.backup_count o.backup_count
  json_format := mergeOptWith (fun _ x => x) b.json_format o.json_format
  remote_endpoint := mergeOptWith (fun _ x => x) b.remote_endpoint o.remote_endpoint

/-- `ConfigManager._merge_configs` on two whole configuration files. -/
def mergeConfigDict (b o : ConfigDict) : ConfigDict where
  tools := mergeOptWith (mergeAList mergeToolDict) b.tools o.tools
  logging := mergeOptWith mergeLoggingDict b.logging o.logging
  profiles :=
    mergeOptWith (mergeAList (mergeAList (fun _ x => x))) b.profiles o.profiles
  global_timeout := mergeOptWith (fun _ x => x) b.global_timeout o.global_timeout
  max_concurrent_jobs :=
    mergeOptWith (fun _ x => x) b.max_concurrent_jobs o.max_concurrent_jobs
  temp_directory := mergeOptWith (fun _ x => x) b.temp_directory o.temp_directory
  monitoring_enabled :=
    mergeOptWith (fun _ x => x) b.monitoring_enabled o.monitoring_enabled
  metrics_endpoint := mergeOptWith (fun _ x => x) b.metrics_endpoint o.metrics_endpoint

/-- The recognized environment-variable overrides, already type-coerced
(`int()` for the numeric variables); a `none` field means the variable is
unset. -/
structure EnvOverrides where
  log_level : Option String := none
  log_file : Option String := none
  global_timeout : Option Int := none
  max_jobs : Option Int := none
  temp_dir : Option String := none
deriving DecidableEq, Repr

/-- `ConfigManager._apply_env_overrides`: each set variable writes its value
into the merged dictionary (creating the nested `logging` dict if absent).
Only logging fields, the global timeout, the job bound and the temp
directory can be overridden — never `tools`. -/
def applyEnvOverrides (env : EnvOverrides) (c : ConfigDict) : ConfigDict :=
  let c1 := match env.log_level with
    | some v => { c with logging := some { c.logging.getD {} with level := some v } }
    | none => c
  let c2 := match env.log_file with
    | some v =>
        { c1 with logging := some { c1.logging.getD {} with file_path := some (some v) } }
    | none => c1
  let c3 := match env.global_timeout with
    | some v => { c2 with global_timeout := some v }
    | none => c2
  let c4 := match env.max_jobs with
    | some v => { c3 with max_concurrent_jobs := some v }
    | none => c3
  match env.temp_dir with
  | some v => { c4 with temp_directory := some (some v) }
  | none => c4

/-- `_create_config_object`'s per-tool constructor: every field is read with
`.get` and the dataclass default, and `name` is set to the dictionary key. -/
def createToolConfig (toolName : String) (d : ToolDict) : ToolConfig where
  name := toolName
  executable_path := d.executable_path.getD ""
  default_args := d.default_args.getD []
  timeout_seconds := d.timeout_seconds.getD 300
  retry_attempts := d.retry_attempts.getD 3
  environment_vars := d.environment_vars.getD []
  validation_rules := d.validation_rules.getD []
  working_directory := d.working_directory.getD none

/-- `_create_config_object`'s logging constructor. -/
def createLoggingConfig (d : LoggingDict) : LoggingConfig where
  level := d.level.getD "INFO"
  format := d.format.getD "%(asctime)s - %(name)s - %(levelname)s - %(message)s"
  file_path := d.file_path.getD none
  max_file_size := d.max_file_size.getD 10485760
  backup_count := d.backup_count.getD 5
  json_format := d.json_format.getD false
  remote_endpoint := d.remote_endpoint.getD none

/-- `ConfigManager._create_config_object`. -/
def createConfigObject (c : ConfigDict) : WrapperConfig where
  tools := (c.tools.getD []).map (fun p => (p.1, createToolConfig p.1 p.2))
  logging := createLoggingConfig (c.logging.getD {})
  profiles := c.profiles.getD []
  global_timeout := c.global_timeout.getD 600
  max_concurrent_jobs := c.max_concurrent_jobs.getD 10
  temp_directory := c.temp_directory.getD none
  monitoring_enabled := c.monitoring_enabled.getD false
  metrics_endpoint := c.metrics_endpoint.getD none

/-- `ConfigManager.load_config`: the files found on the search path, lowest
precedence first (a missing file contributes no layer), are deep-merged into
`{}`, the environment overrides are applied, and the result is turned into a
`WrapperConfig`. -/
def loadConfig (layers : List ConfigDict) (env : EnvOverrides) : WrapperConfig :=
  createConfigObject (applyEnvOverrides env (layers.foldl mergeConfigDict {}))

/-- The dictionary `ConfigManager.save_config` writes: every field of every
tool, the full logging section and all top-level scalars are written
explicitly. -/
def saveConfigDict (cfg : WrapperConfig) : ConfigDict where
  tools := some (cfg.tools.map (fun p =>
    (p.1,
      { executable_path := some p.2.executable_path
        default_args := some p.2.default_args
        timeout_seconds := some p.2.timeout_seconds
        retry_attempts := some p.2.retry_attempts
        environment_vars := some p.2.environment_vars
        validation_rules := some p.2.validation_rules
        working_directory := some p.2.working_directory })))
  logging := some
    { level := some cfg.logging.level
      format := some cfg.logging.format
      file_path := some cfg.logging.file_path
      max_file_size := some cfg.logging.max_file_size
      backup_count := some cfg.logging.backup_count
      json_format := some cfg.logging.json_format
      remote_endpoint := some cfg.logging.remote_endpoint }
  profiles := some cfg.profiles
  global_timeout := some cfg.global_timeout
  max_concurrent_jobs := some cfg.max_concurrent_jobs
  temp_directory := some cfg.temp_directory
  monitoring_enabled := some cfg.monitoring_enabled
  metrics_endpoint := some cfg.metrics_endpoint

/-! ### Predicates used to state the validation claims -/

/-- All entries of all `required_args` rules of a rule list. -/
def requiredEntries (rules : List VRule) : List String :=
  rules.foldr
    (fun r acc =>
      match r with
      | .required_args xs => xs ++ acc
      | _ => acc) []

/-- Some `file_exists` rule lists an index that is in range of the caller
arguments and whose argument is not an existing path. -/
def fileRuleViolated (args : List String) (fs : String → Bool)
    (rules : List VRule) : Prop :=
  ∃ idxs, VRule.file_exists idxs ∈ rules ∧
    ∃ i, i ∈ idxs ∧ i < args.length ∧ fs (args.getD i "") = false

/-! ### Concrete fixtures

Concrete configurations, attempt environments and results used by the
counterexample and witness theorems below.  `cfgRetryA`/`cfgRetryB` mirror
the repository's own test fixture (`tests/test_wrapper.py`): a tool with
`retry_attempts = 2` whose first attempt raises `ToolExecutionError`. -/

def toolRetryA : ToolConfig :=
  { name := "test_tool", executable_path := "test_tool.exe",
    timeout_seconds := 30, retry_attempts := 2 }

def cfgRetryA : WrapperConfig := { tools := [("test_tool", toolRetryA)] }

/-- First attempt raises `ToolExecutionError`, the second would succeed
(the scenario of `test_execute_tool_with_retry`). -/
def attRetryThenOk : Nat → Int → Except PyExc ProcessResult := fun i _ =>
  if i = 0 then .error (.toolExecutionError "First attempt failed" 1 "Error message")
  else .ok
    { return_code := 0, stdout := "Success on retry", stderr := "",
      duration := 2, command := "test_tool.exe", tool_name := "test_tool" }

def toolRetryB : ToolConfig :=
  { name := "retry_tool", executable_path := "retry_tool.exe",
    timeout_seconds := 30, retry_attempts := 2 }

def cfgRetryB : WrapperConfig := { tools := [("retry_tool", toolRetryB)] }

/-- Every attempt raises `ToolExecutionError`
(the scenario of `test_execute_tool_all_retries_fail`). -/
def attAlwaysFail : Nat → Int → Except PyExc ProcessResult := fun _ _ =>
  .error (.toolExecutionError "All attempts failed" 1 "Error")

/-- Batch fixture for the C3 witness: item 0 succeeds, item 1 raises. -/
def itemExecW : Nat → Except PyExc ProcessResult := fun i =>
  if i = 0 then .ok
    { return_code := 0, stdout := "out0", stderr := "", duration := 1,
      command := "batch.exe a", tool_name := "batch_tool" }
  else .error (.toolExecutionError "boom" 1 "bad")

def batchArgsW : List (List String) := [["a"], ["b"]]

/-- Dry-run counterexample tool: a `required_args` rule that the (empty)
caller argument list cannot satisfy. -/
def toolDry : ToolConfig :=
  { name := "dry_tool", executable_path := "dry.exe",
    validation_rules := [.required_args ["-i"]] }

def cfgDry : WrapperConfig := { tools := [("dry_tool", toolDry)] }

/-- Dry-run witness tool: no validation rules. -/
def toolDryW : ToolConfig :=
  { name := "dryw_tool", executable_path := "dryw.exe", default_args := ["-v"] }

def cfgDryW : WrapperConfig := { tools := [("dryw_tool", toolDryW)] }

/-- C6 counterexample tool: a `file_exists` rule listing index 0, called with
an empty argument list, so the index is out of range and never checked. -/
def toolFile : ToolConfig :=
  { name := "file_tool", executable_path := "file.exe", retry_attempts := 1,
    validation_rules := [.file_exists [0]] }

def cfgFile : WrapperConfig := { tools := [("file_tool", toolFile)] }

/-- The result the single attempt of the C6 counterexample returns. -/
def resFile : ProcessResult :=
  { return_code := 0, stdout := "ran", stderr := "", duration := 1,
    command := "file.exe", tool_name := "file_tool" }

def attFile : Nat → Int → Except PyExc ProcessResult := fun _ _ => .ok resFile

/-- C6 witness tool: a `file_exists` rule whose index 0 is in range. -/
def toolFileW : ToolConfig :=
  { name := "filew_tool", executable_path := "filew.exe",
    validation_rules := [.file_exists [0]] }

def cfgFileW : WrapperConfig := { tools := [("filew_tool", toolFileW)] }

/-- C7 counterexample tool: only a `file_exists` rule (its `required_args`
entries are trivially all present), with an argument naming a missing file. -/
def toolReq : ToolConfig :=
  { name := "req_tool", executable_path := "req.exe",
    validation_rules := [.file_exists [0]] }

def cfgReq : WrapperConfig := { tools := [("req_tool", toolReq)] }

/-- C7 witness tool: a `required_args` rule with a flag the caller omits. -/
def toolReqW : ToolConfig :=
  { name := "reqw_tool", executable_path := "reqw.exe",
    validation_rules := [.required_args ["-i"]] }

def cfgReqW : WrapperConfig := { tools := [("reqw_tool", toolReqW)] }

/-- C8 witness registry: two tracked processes. -/
def regW : List (String × Nat) := [("alive_1", 1), ("dead_2", 2)]

def infoW : ProcInfo :=
  { status := "running", cpu_percent := 5, memory_rss := 1048576, create_time := 100 }

/-- C8 witness probe: pid 1 is alive, pid 2 has exited. -/
def probeW : Nat → Option ProcInfo := fun p => if p = 1 then some infoW else none

/-- C9 witness tool. -/
def tool9W : ToolConfig :=
  { name := "echo_tool", executable_path := "/bin/echo",
    default_args := ["hello"], timeout_seconds := 5, retry_attempts := 1 }

/-- C9 witness configuration. -/
def cfg9W : WrapperConfig :=
  { tools := [("echo_tool", tool9W)], global_timeout := 300 }

/-- C10 tool: `retry_attempts = 0`. -/
def toolZero : ToolConfig :=
  { name := "zero_tool", executable_path := "zero.exe", retry_attempts := 0 }

def cfgZero : WrapperConfig := { tools := [("zero_tool", toolZero)] }

/-- Attempt oracle for the C10 witness; it must never be consulted. -/
def attZero : Nat → Int → Except PyExc ProcessResult := fun _ _ =>
  .error (.otherError "no attempt expected")

/-! ## Theorems -/

/-- C1: evaluation of the code at the failing input.  A `ToolExecutionError`
raised by the first of two configured attempts does not trigger a further
retry attempt after the fixed sleep, as the spec states: the `except` handler
reads the non-existent `ToolConfig.retry_wait_seconds` (wrapper.py line 254)
and the resulting `AttributeError` propagates after exactly one attempt,
although the second attempt would have succeeded.  The repository's own test
`test_execute_tool_with_retry` expects the second attempt to run. -/
theorem retryable_error_hits_missing_retry_wait :
    executeTool cfgRetryA none (some "test_tool") (some []) none false
        attRetryThenOk (fun _ => true) =
      { outcome := .error retryWaitAttributeError, attempts := 1 } := by
  rfl

/-- C2: evaluation of the code at the failing input.  For a tool configured
with `retry_attempts = 2` whose every attempt raises `ToolExecutionError`,
the code performs exactly one execution attempt and then propagates an
`AttributeError` (missing `ToolConfig.retry_wait_seconds`, wrapper.py line
254) instead of performing two attempts and propagating the final
`ToolExecutionError`.  The repository's own test
`test_execute_tool_all_retries_fail` expects two attempts. -/
theorem exact_retry_count_defeated :
    executeTool cfgRetryB none (some "retry_tool") (some []) none false
        attAlwaysFail (fun _ => true) =
      { outcome := .error retryWaitAttributeError, attempts := 1 } := by
  rfl

/-- C4 counterexample: a configured tool with a `required_args` validation
rule and an argument list missing the flag.  `execute_tool` with
`dry_run=True` raises `ValidationError` instead of returning a successful
`ProcessResult`, because validation runs before the dry-run branch; so the
dry-run contract does not hold for all argument lists. -/
theorem dryRun_validation_counterexample :
    executeTool cfgDry none (some "dry_tool") (some []) none true
        (fun _ _ => .error (.otherError "x")) (fun _ => false) =
      { outcome := .error (.validationError
          ("Required argument " ++ q "-i" ++ " missing for tool " ++ q "dry_tool")
          (some "args") (some (pyListRepr ([] : List String)))),
        attempts := 0 } := by
  rfl

/-- C4 (amended): for every configured tool and argument list that passes
configuration and argument validation, `execute_tool` with `dry_run=True`
spawns no process (zero attempts) and returns a `ProcessResult` with
`success = true`, return code 0, duration 0.0, and the fully rendered
command line (executable path followed by the final argument list) in its
stdout text. -/
theorem executeTool_dryRun_preview
    (cfg : WrapperConfig) (name : String) (tc : ToolConfig)
    (args : Option (List String)) (finalArgs : List String)
    (fs : String → Bool) (selfName : Option String) (t? : Option Int)
    (att : Nat → Int → Except PyExc ProcessResult)
    (hname : name ≠ "")
    (htc : validateToolConfig cfg name = .ok tc)
    (hva : validateArguments cfg name (args.getD []) fs = .ok finalArgs) :
    ∃ r, executeTool cfg selfName (some name) args t? true att fs =
        { outcome := .ok r, attempts := 0 } ∧
      r.success = true ∧ r.return_code = 0 ∧ r.duration = 0 ∧
      r.stdout = "DRY RUN: " ++ commandPreview tc finalArgs ∧
      r.command = commandPreview tc finalArgs := by
  refine ⟨{ return_code := 0, stdout := "DRY RUN: " ++ commandPreview tc finalArgs,
            stderr := "", duration := 0, command := commandPreview tc finalArgs,
            tool_name := name }, ?_, rfl, rfl, rfl, rfl, rfl⟩
  simp [executeTool, effectiveToolName, hname, htc, hva]

/-- C4 witness: the amended dry-run theorem applied to a concrete
configured tool with a default argument and a passing argument list. -/
theorem executeTool_dryRun_preview_witness :
    ∃ r, executeTool cfgDryW none (some "dryw_tool") (some ["f.txt"]) none true
        attZero (fun _ => true) =
        { outcome := .ok r, attempts := 0 } ∧
      r.success = true ∧ r.return_code = 0 ∧ r.duration = 0 ∧
      r.stdout = "DRY RUN: " ++ commandPreview toolDryW ["-v", "f.txt"] ∧
      r.command = commandPreview toolDryW ["-v", "f.txt"] :=
  executeTool_dryRun_preview cfgDryW "dryw_tool" toolDryW (some ["f.txt"])
    ["-v", "f.txt"] (fun _ => true) none none attZero (by decide) rfl rfl

/-- C5 counterexample: with an explicitly supplied `timeout = 0`, a tool
timeout of 300 and a global timeout of 600, the effective timeout is 300,
not the explicit 0: `timeout or tool or global` treats 0 as falsy, so an
explicit 0 does not take precedence over the configured values. -/
theorem effectiveTimeout_zero_counterexample :
    effectiveTimeout (some 0) 300 600 = 300 ∧
      effectiveTimeout (some 0) 300 600 ≠ 0 := by
  exact ⟨rfl, by decide⟩

/-- C5 (amended): the timeout passed to `ProcessManager.execute_tool` is the
caller's explicit timeout when supplied and non-zero; otherwise (missing or
an explicit 0, both falsy) the tool's configured `timeout_seconds` when
non-zero; otherwise the wrapper-wide `global_timeout`. -/
theorem effectiveTimeout_fallback (t? : Option Int) (toolT g : Int) :
    (∀ t, t? = some t → t ≠ 0 → effectiveTimeout t? toolT g = t) ∧
    ((t? = none ∨ t? = some 0) → toolT ≠ 0 → effectiveTimeout t? toolT g = toolT) ∧
    ((t? = none ∨ t? = some 0) → toolT = 0 → effectiveTimeout t? toolT g = g) := by
  refine ⟨?_, ?_, ?_⟩
  · intro t ht hnz
    subst ht
    simp [effectiveTimeout, hnz]
  · rintro (rfl | rfl) hnz <;> simp [effectiveTimeout, pyOrInt, hnz]
  · rintro (rfl | rfl) hz <;> simp [effectiveTimeout, pyOrInt, hz]

/-- C5 witness: a non-zero explicit timeout wins over the configured ones. -/
theorem effectiveTimeout_fallback_witness : effectiveTimeout (some 7) 300 600 = 7 :=
  (effectiveTimeout_fallback (some 7) 300 600).1 7 rfl (by decide)

/-- C10: for every configured tool with `retry_attempts = 0` and a non-dry
run whose arguments pass validation, the retry loop body never runs: no
process is spawned (zero attempts) and the synthesized `ToolExecutionError`
with return code -1, stderr `"Unknown error"` and a message stating the tool
failed after 0 attempts propagates to the caller. -/
theorem executeTool_zero_retries
    (cfg : WrapperConfig) (name : String) (tc : ToolConfig)
    (args : Option (List String)) (finalArgs : List String)
    (fs : String → Bool) (selfName : Option String) (t? : Option Int)
    (att : Nat → Int → Except PyExc ProcessResult)
    (hname : name ≠ "")
    (htc : validateToolConfig cfg name = .ok tc)
    (hva : validateArguments cfg name (args.getD []) fs = .ok finalArgs)
    (hr : tc.retry_attempts = 0) :
    executeTool cfg selfName (some name) args t? false att fs =
      { outcome := .error (.toolExecutionError (exhaustedMessage name 0)
          (-1) "Unknown error"),
        attempts := 0 } := by
  simp [executeTool, effectiveToolName, hname, htc, hva, runAttempts, hr]

/-- C10 witness: the zero-retry theorem applied to a concrete tool with
`retry_attempts = 0`; the attempt oracle is never consulted. -/
theorem executeTool_zero_retries_witness :
    executeTool cfgZero none (some "zero_tool") (some []) none false attZero
        (fun _ => true) =
      { outcome := .error (.toolExecutionError (exhaustedMessage "zero_tool" 0)
          (-1) "Unknown error"),
        attempts := 0 } :=
  executeTool_zero_retries cfgZero "zero_tool" toolZero (some []) []
    (fun _ => true) none none attZero (by decide) rfl rfl rfl

/-! ### Validation-rule lemmas -/

/-- Every error a single rule check produces is a `ValidationError`. -/
theorem checkRule_some_isValidationError {toolName : String} {args : List String}
    {fs : String → Bool} {r : VRule} {e : PyExc}
    (h : checkRule toolName args fs r = some e) : e.isValidationError = true := by
  cases r with
  | required_args xs =>
      simp only [checkRule] at h
      split at h
      · cases h; rfl
      · exact Option.noConfusion h
  | file_exists idxs =>
      simp only [checkRule] at h
      split at h
      · cases h; rfl
      · exact Option.noConfusion h
  | other n => exact Option.noConfusion h

/-- Every error the rule loop produces is a `ValidationError`. -/
theorem checkRules_some_isValidationError {toolName : String} {args : List String}
    {fs : String → Bool} {e : PyExc} :
    ∀ {rules : List VRule}, checkRules toolName args fs rules = some e →
      e.isValidationError = true := by
  intro rules
  induction rules with
  | nil => intro h; exact Option.noConfusion h
  | cons r rs ih =>
      intro h
      simp only [checkRules] at h
      split at h
      next e' hr => cases h; exact checkRule_some_isValidationError hr
      next hr => exact ih h

/-- Entries of a member `required_args` rule belong to `requiredEntries`. -/
theorem mem_requiredEntries {rules : List VRule} {xs : List String} {x : String}
    (hr : VRule.required_args xs ∈ rules) (hx : x ∈ xs) :
    x ∈ requiredEntries rules := by
  induction rules with
  | nil => cases hr
  | cons r rs ih =>
      rcases List.mem_cons.mp hr with h | h
      · subst h
        simp only [requiredEntries, List.foldr_cons]
        exact List.mem_append_left _ hx
      · have := ih h
        cases r with
        | required_args ys =>
            simp only [requiredEntries, List.foldr_cons] at this ⊢
            exact List.mem_append_right _ this
        | file_exists idxs => simpa [requiredEntries] using this
        | other n => simpa [requiredEntries] using this

/-- If the rule loop raises nothing, every `required_args` entry is present
in the caller arguments. -/
theorem checkRules_none_required {toolName : String} {args : List String}
    {fs : String → Bool} :
    ∀ {rules : List VRule}, checkRules toolName args fs rules = none →
      ∀ xs, VRule.required_args xs ∈ rules → ∀ x ∈ xs, x ∈ args := by
  intro rules
  induction rules with
  | nil => intro _ xs hxs; cases hxs
  | cons r rs ih =>
      intro h xs hxs x hx
      simp only [checkRules] at h
      split at h
      next e hr => exact Option.noConfusion h
      next hr =>
          rcases List.mem_cons.mp hxs with hh | hh
          · subst hh
            simp only [checkRule] at hr
            split at hr
            next y hfind => exact Option.noConfusion hr
            next hfind =>
                have := List.find?_eq_none.mp hfind x hx
                simpa using this
          · exact ih h xs hh x hx

/-- A missing required argument forces the rule loop to raise. -/
theorem checkRules_some_of_required_missing {toolName : String} {args : List String}
    {fs : String → Bool} :
    ∀ {rules : List VRule}, (∃ x, x ∈ requiredEntries rules ∧ x ∉ args) →
      ∃ e, checkRules toolName args fs rules = some e := by
  intro rules
  induction rules with
  | nil => rintro ⟨x, hx, _⟩; simp [requiredEntries] at hx
  | cons r rs ih =>
      rintro ⟨x, hx, hxa⟩
      cases hr : checkRule toolName args fs r with
      | some e => exact ⟨e, by simp only [checkRules, hr]⟩
      | none =>
          have hrs : x ∈ requiredEntries rs := by
            cases r with
            | required_args ys =>
                simp only [requiredEntries, List.foldr_cons] at hx
                rcases List.mem_append.mp hx with hy | hy
                · exfalso
                  simp only [checkRule] at hr
                  split at hr
                  next z hfind => exact Option.noConfusion hr
                  next hfind =>
                      have := List.find?_eq_none.mp hfind x hy
                      simp at this
                      exact hxa this
                · exact hy
            | file_exists idxs => simpa [requiredEntries] using hx
            | other n => simpa [requiredEntries] using hx
          obtain ⟨e, he⟩ := ih ⟨x, hrs, hxa⟩
          exact ⟨e, by simp only [checkRules, hr, he]⟩

/-- A violated in-range `file_exists` index forces the rule loop to raise. -/
theorem checkRules_some_of_fileViolation {toolName : String} {args : List String}
    {fs : String → Bool} :
    ∀ {rules : List VRule}, fileRuleViolated args fs rules →
      ∃ e, checkRules toolName args fs rules = some e := by
  intro rules
  induction rules with
  | nil => rintro ⟨idxs, hidxs, _⟩; cases hidxs
  | cons r rs ih =>
      rintro ⟨idxs, hidxs, i, hi, hlen, hfs⟩
      cases hr : checkRule toolName args fs r with
      | some e => exact ⟨e, by simp only [checkRules, hr]⟩
      | none =>
          rcases List.mem_cons.mp hidxs with hh | hh
          · exfalso
            subst hh
            simp only [checkRule] at hr
            split at hr
            next j hfind => exact Option.noConfusion hr
            next hfind =>
                have := List.find?_eq_none.mp hfind i hi
                simp [hlen] at this
                rw [List.getD_eq_getElem?_getD] at hfs
                simp [List.getElem?_eq_getElem hlen] at hfs
                exact absurd this (by simp [hfs])
          · obtain ⟨e, he⟩ := ih ⟨idxs, hh, i, hi, hlen, hfs⟩
            exact ⟨e, by simp only [checkRules, hr, he]⟩

/-- When the rule loop's error is the file-existence error (its `field` is
`"file_path"`), it names an offending path: the value carried by the error
is the argument at some listed, in-range index that is not an existing
path. -/
theorem checkRules_some_file_names {toolName : String} {args : List String}
    {fs : String → Bool} {e : PyExc} :
    ∀ {rules : List VRule}, checkRules toolName args fs rules = some e →
      e.vfield = some "file_path" →
      ∃ idxs i, VRule.file_exists idxs ∈ rules ∧ i ∈ idxs ∧ i < args.length ∧
        fs (args.getD i "") = false ∧ e.vvalue = some (args.getD i "") := by
  intro rules
  induction rules with
  | nil => intro h; exact absurd h (by simp [checkRules])
  | cons r rs ih =>
      intro h hf
      simp only [checkRules] at h
      split at h
      next e' hr =>
          cases h
          cases r with
          | required_args xs =>
              simp only [checkRule] at hr
              split at hr
              next x hfind =>
                  cases hr
                  simp [PyExc.vfield] at hf
              next hfind => exact Option.noConfusion hr
          | file_exists idxs =>
              simp only [checkRule] at hr
              split at hr
              next i hfind =>
                  cases hr
                  have hp := List.find?_some hfind
                  have hmem := List.mem_of_find?_eq_some hfind
                  simp only [Bool.and_eq_true, decide_eq_true_eq, Bool.not_eq_true'] at hp
                  exact ⟨idxs, i, List.mem_cons_self _ _, hmem, hp.1, hp.2, rfl⟩
              next hfind => exact Option.noConfusion hr
          | other n => exact Option.noConfusion hr
      next hr =>
          obtain ⟨idxs, i, hmem, hrest⟩ := ih h hf
          exact ⟨idxs, i, List.mem_cons_of_mem _ hmem, hrest⟩

/-- When the rule loop's error is the required-argument error (its `field`
is `"args"`), it names a genuinely missing flag. -/
theorem checkRules_some_required_names {toolName : String} {args : List String}
    {fs : String → Bool} {e : PyExc} :
    ∀ {rules : List VRule}, checkRules toolName args fs rules = some e →
      e.vfield = some "args" →
      ∃ x, x ∈ requiredEntries rules ∧ x ∉ args ∧
        e.message = "Required argument " ++ q x ++ " missing for tool " ++ q toolName := by
  intro rules
  induction rules with
  | nil => intro h; exact absurd h (by simp [checkRules])
  | cons r rs ih =>
      intro h hf
      simp only [checkRules] at h
      split at h
      next e' hr =>
          cases h
          cases r with
          | required_args xs =>
              simp only [checkRule] at hr
              split at hr
              next x hfind =>
                  cases hr
                  have hp := List.find?_some hfind
                  have hmem := List.mem_of_find?_eq_some hfind
                  refine ⟨x, mem_requiredEntries (List.mem_cons_self _ _) hmem, ?_, rfl⟩
                  simpa using hp
              next hfind => exact Option.noConfusion hr
          | file_exists idxs =>
              simp only [checkRule] at hr
              split at hr
              next i hfind =>
                  cases hr
                  simp [PyExc.vfield] at hf
              next hfind => exact Option.noConfusion hr
          | other n => exact Option.noConfusion hr
      next hr =>
          obtain ⟨x, hmem, hrest⟩ := ih h hf
          refine ⟨x, ?_, hrest⟩
          cases r with
          | required_args ys =>
              simp only [requiredEntries, List.foldr_cons]
              exact List.mem_append_right _ hmem
          | file_exists idxs => simpa [requiredEntries] using hmem
          | other n => simpa [requiredEntries] using hmem

/-- Unfolding of `validateArguments` once the tool config is validated. -/
theorem validateArguments_eq (cfg : WrapperConfig) (name : String)
    (args : List String) (fs : String → Bool) (tc : ToolConfig)
    (htc : validateToolConfig cfg name = .ok tc) :
    validateArguments cfg name args fs =
      match checkRules name args fs tc.validation_rules with
      | some e => .error e
      | none => .ok (tc.default_args ++ args) := by
  unfold validateArguments
  rw [htc]
  rfl

/-- C6 counterexample: a configured tool whose `file_exists` rule lists
index 0 is called with an empty argument list (so no argument at index 0
refers to an existing path — the existence oracle is constantly false), yet
`execute_tool` raises no `ValidationError`: validation passes, a process is
spawned (one attempt) and its result is returned.  Listed indices that are
out of range of the caller argument list are silently skipped. -/
theorem fileExists_out_of_range_counterexample :
    executeTool cfgFile none (some "file_tool") (some []) none false attFile
        (fun _ => false) =
      { outcome := .ok resFile, attempts := 1 } := by
  rfl

/-- C6 (amended): for every configured tool, whenever some index listed in a
`file_exists` rule is in range of the caller-supplied argument list and the
argument there is not an existing path, `execute_tool` raises a
`ValidationError` before any process starts (zero attempts); and when that
error is the file-existence error it names an offending path.  Indices out
of range of the caller argument list are not checked. -/
theorem executeTool_fileExists_validation
    (cfg : WrapperConfig) (name : String) (tc : ToolConfig) (args : List String)
    (fs : String → Bool) (selfName : Option String) (t? : Option Int) (dr : Bool)
    (att : Nat → Int → Except PyExc ProcessResult)
    (hname : name ≠ "")
    (htc : validateToolConfig cfg name = .ok tc)
    (hviol : fileRuleViolated args fs tc.validation_rules) :
    (executeTool cfg selfName (some name) (some args) t? dr att fs).attempts = 0 ∧
    ∃ e, (executeTool cfg selfName (some name) (some args) t? dr att fs).outcome =
        .error e ∧
      e.isValidationError = true ∧
      (e.vfield = some "file_path" →
        ∃ i idxs, VRule.file_exists idxs ∈ tc.validation_rules ∧ i ∈ idxs ∧
          i < args.length ∧ fs (args.getD i "") = false ∧
          e.vvalue = some (args.getD i "")) := by
  obtain ⟨e, he⟩ := @checkRules_some_of_fileViolation name args fs tc.validation_rules hviol
  have hva : validateArguments cfg name args fs = .error e := by
    rw [validateArguments_eq cfg name args fs tc htc, he]
  refine ⟨?_, e, ?_, checkRules_some_isValidationError he, ?_⟩
  · simp [executeTool, effectiveToolName, hname, htc, hva]
  · simp [executeTool, effectiveToolName, hname, htc, hva]
  · intro hfield
    obtain ⟨idxs, i, hmem, himem, hlen, hfs, hval⟩ := checkRules_some_file_names he hfield
    exact ⟨i, idxs, hmem, himem, hlen, hfs, hval⟩

/-- C6 witness: the amended theorem applied to a concrete tool whose
`file_exists` rule lists the in-range index 0 while the oracle reports no
existing path. -/
theorem executeTool_fileExists_validation_witness :
    (executeTool cfgFileW none (some "filew_tool") (some ["ghost.txt"]) none false
        attFile (fun _ => false)).attempts = 0 ∧
    ∃ e, (executeTool cfgFileW none (some "filew_tool") (some ["ghost.txt"]) none false
        attFile (fun _ => false)).outcome = .error e ∧
      e.isValidationError = true ∧
      (e.vfield = some "file_path" →
        ∃ i idxs, VRule.file_exists idxs ∈ toolFileW.validation_rules ∧ i ∈ idxs ∧
          i < (["ghost.txt"] : List String).length ∧
          (fun _ => false : String → Bool) ((["ghost.txt"] : List String).getD i "") = false ∧
          e.vvalue = some ((["ghost.txt"] : List String).getD i "")) :=
  executeTool_fileExists_validation cfgFileW "filew_tool" toolFileW ["ghost.txt"]
    (fun _ => false) none none false attFile (by decide) rfl
    ⟨[0], by decide, 0, by decide, by decide, rfl⟩

/-- C7 counterexample: a configured tool with only a `file_exists` rule
(there is no `required_args` rule, so every required entry is trivially
present in the caller list), called with an argument naming a missing file.
The claim's "otherwise" branch demands that `validate_arguments` return the
default arguments followed by the caller arguments, but the code raises the
file-existence `ValidationError` instead. -/
theorem validateArguments_fileRule_counterexample :
    validateArguments cfgReq "req_tool" ["ghost.txt"] (fun _ => false) =
      .error (.validationError ("File does not exist: ghost.txt")
        (some "file_path") (some "ghost.txt")) ∧
    requiredEntries toolReq.validation_rules = [] := by
  exact ⟨rfl, rfl⟩

/-- C7 (amended): for every configured tool, if some `required_args` entry
is missing from the caller-supplied argument list then `validate_arguments`
raises a `ValidationError` (naming a genuinely missing flag whenever the
error raised is the required-argument error); and whenever
`validate_arguments` returns, every `required_args` entry was present and
the returned list is exactly the configured default arguments followed by
the caller-supplied arguments, order preserved, no de-duplication. -/
theorem validateArguments_required_and_merge
    (cfg : WrapperConfig) (name : String) (tc : ToolConfig) (args : List String)
    (fs : String → Bool)
    (htc : validateToolConfig cfg name = .ok tc) :
    ((∃ x, x ∈ requiredEntries tc.validation_rules ∧ x ∉ args) →
      ∃ e, validateArguments cfg name args fs = .error e ∧
        e.isValidationError = true ∧
        (e.vfield = some "args" →
          ∃ x, x ∈ requiredEntries tc.validation_rules ∧ x ∉ args ∧
            e.message = "Required argument " ++ q x ++ " missing for tool " ++ q name)) ∧
    (∀ res, validateArguments cfg name args fs = .ok res →
      res = tc.default_args ++ args ∧
      ∀ xs, VRule.required_args xs ∈ tc.validation_rules → ∀ x ∈ xs, x ∈ args) := by
  constructor
  · intro hmiss
    obtain ⟨e, he⟩ := @checkRules_some_of_required_missing name args fs tc.validation_rules hmiss
    refine ⟨e, ?_, checkRules_some_isValidationError he, ?_⟩
    · rw [validateArguments_eq cfg name args fs tc htc, he]
    · exact fun hfield => checkRules_some_required_names he hfield
  · intro res hres
    rw [validateArguments_eq cfg name args fs tc htc] at hres
    split at hres
    next e hcr => exact Except.noConfusion hres
    next hcr =>
        cases hres
        exact ⟨rfl, checkRules_none_required hcr⟩

/-- C7 witness: the amended theorem applied to a concrete tool whose
`required_args` rule lists a flag the caller omits. -/
theorem validateArguments_required_and_merge_witness :
    ∃ e, validateArguments cfgReqW "reqw_tool" [] (fun _ => true) = .error e ∧
      e.isValidationError = true ∧
      (e.vfield = some "args" →
        ∃ x, x ∈ requiredEntries toolReqW.validation_rules ∧ x ∉ ([] : List String) ∧
          e.message = "Required argument " ++ q x ++ " missing for tool " ++ q "reqw_tool") :=
  (validateArguments_required_and_merge cfgReqW "reqw_tool" toolReqW []
      (fun _ => true) rfl).1 ⟨"-i", by decide, by decide⟩

/-! ### Active-process-registry lemmas -/

/-- In a registry with no duplicate keys, a key determines its pid. -/
theorem nodup_keys_pid_unique :
    ∀ {l : List (String × Nat)}, (l.map Prod.fst).Nodup →
      ∀ {k : String} {p₁ p₂ : Nat}, (k, p₁) ∈ l → (k, p₂) ∈ l → p₁ = p₂ := by
  intro l
  induction l with
  | nil => intro _ _ _ _ h; cases h
  | cons a l ih =>
      intro hnd k p₁ p₂ h1 h2
      rw [List.map_cons, List.nodup_cons] at hnd
      rcases List.mem_cons.mp h1 with hc1 | hc1 <;> rcases List.mem_cons.mp h2 with hc2 | hc2
      · rw [← hc2] at hc1
        exact (Prod.ext_iff.mp hc1).2
      · subst hc1
        have hk : k ∈ List.map Prod.fst l := List.mem_map_of_mem Prod.fst hc2
        exact absurd hk hnd.1
      · subst hc2
        have hk : k ∈ List.map Prod.fst l := List.mem_map_of_mem Prod.fst hc1
        exact absurd hk hnd.1
      · exact ih hnd.2 hc1 hc2

/-- C8: for every registry state (no duplicate keys, as a Python dict) and
every liveness probe, `get_active_processes` never returns an entry whose
underlying process no longer exists, and an entry whose process has exited
is dropped from the returned snapshot and removed from the registry, so it
cannot appear in subsequent calls. -/
theorem getActiveProcesses_drops_dead (registry : List (String × Nat))
    (probe : Nat → Option ProcInfo)
    (hnd : (registry.map Prod.fst).Nodup) :
    (∀ k a, (k, a) ∈ (getActiveProcesses registry probe).1 → probe a.pid ≠ none) ∧
    (∀ k p, (k, p) ∈ registry → probe p = none →
      (∀ a, (k, a) ∉ (getActiveProcesses registry probe).1) ∧
      (k, p) ∉ (getActiveProcesses registry probe).2) := by
  constructor
  · intro k a ha
    obtain ⟨kp, hkp, hf⟩ := List.mem_filterMap.mp ha
    cases hp : probe kp.2 with
    | none => simp [hp] at hf
    | some info =>
        simp only [hp] at hf
        cases hf
        simp [hp]
  · intro k p hmem hdead
    have hnotin : ∀ a, (k, a) ∉ (getActiveProcesses registry probe).1 := by
      intro a ha
      obtain ⟨kp, hkp, hf⟩ := List.mem_filterMap.mp ha
      cases hp : probe kp.2 with
      | none => simp [hp] at hf
      | some info =>
          simp only [hp] at hf
          cases hf
          have : kp.2 = p := nodup_keys_pid_unique hnd (by exact hkp) hmem
          rw [this, hdead] at hp
          exact Option.noConfusion hp
    refine ⟨hnotin, ?_⟩
    intro hin
    have hpred := List.of_mem_filter hin
    simp only [List.any_eq_true] at hpred
    obtain ⟨a, hamem, haeq⟩ := hpred
    have : (k, a.2) ∈ (getActiveProcesses registry probe).1 := by
      have hk : a.1 = k := by simpa using haeq
      rw [← hk]
      exact hamem
    exact hnotin a.2 this

/-- C8 witness: in a registry tracking a live pid 1 and an exited pid 2,
the exited entry appears neither in the snapshot nor in the cleaned-up
registry. -/
theorem getActiveProcesses_drops_dead_witness :
    (∀ a, ("dead_2", a) ∉ (getActiveProcesses regW probeW).1) ∧
      ("dead_2", 2) ∉ (getActiveProcesses regW probeW).2 :=
  (getActiveProcesses_drops_dead regW probeW (by decide)).2 "dead_2" 2
    (by decide) rfl

/-! ### Configuration round-trip lemmas -/

/-- Merging any file onto the empty base dictionary returns the file. -/
theorem mergeConfigDict_empty (s : ConfigDict) : mergeConfigDict {} s = s := rfl

/-- Environment-variable overrides never touch the `tools` section. -/
theorem applyEnvOverrides_tools (env : EnvOverrides) (c : ConfigDict) :
    (applyEnvOverrides env c).tools = c.tools := by
  rcases env with ⟨ll, lf, gt, mj, td⟩
  unfold applyEnvOverrides
  cases ll <;> cases lf <;> cases gt <;> cases mj <;> cases td <;> rfl

/-- Loading exactly the saved file reproduces the tool mapping, with each
tool's `name` field reset to its dictionary key. -/
theorem loadConfig_saveConfigDict_tools (cfg : WrapperConfig) (env : EnvOverrides) :
    (loadConfig [saveConfigDict cfg] env).tools =
      cfg.tools.map (fun p => (p.1, { p.2 with name := p.1 })) := by
  unfold loadConfig
  have h1 : [saveConfigDict cfg].foldl mergeConfigDict {} = saveConfigDict cfg := by
    simp only [List.foldl_cons, List.foldl_nil, mergeConfigDict_empty]
  rw [h1]
  show ((applyEnvOverrides env (saveConfigDict cfg)).tools.getD []).map _ = _
  rw [applyEnvOverrides_tools]
  show ((saveConfigDict cfg).tools.getD []).map
      (fun p => (p.1, createToolConfig p.1 p.2)) = _
  simp only [saveConfigDict, Option.getD_some, List.map_map]
  rfl

/-- C9: saving a `WrapperConfig` and loading the saved file back (no other
configuration layers contribute, any environment overrides) reproduces an
equivalent tool mapping: the same tool names in the same order, and for each
tool the same executable path, timeout and retry count. -/
theorem saveConfig_load_roundtrip (cfg : WrapperConfig) (env : EnvOverrides) :
    ((loadConfig [saveConfigDict cfg] env).tools.map Prod.fst =
      cfg.tools.map Prod.fst) ∧
    (∀ n t, (n, t) ∈ cfg.tools →
      ∃ t', (n, t') ∈ (loadConfig [saveConfigDict cfg] env).tools ∧
        t'.executable_path = t.executable_path ∧
        t'.timeout_seconds = t.timeout_seconds ∧
        t'.retry_attempts = t.retry_attempts) := by
  constructor
  · rw [loadConfig_saveConfigDict_tools, List.map_map]
    rfl
  · intro n t hm
    refine ⟨{ t with name := n }, ?_, rfl, rfl, rfl⟩
    rw [loadConfig_saveConfigDict_tools]
    exact List.mem_map_of_mem (fun p => (p.1, { p.2 with name := p.1 })) hm

/-- C9 witness: the round-trip theorem applied to a concrete configuration
with one tool. -/
theorem saveConfig_load_roundtrip_witness :
    ∃ t', ("echo_tool", t') ∈ (loadConfig [saveConfigDict cfg9W] {}).tools ∧
      t'.executable_path = tool9W.executable_path ∧
      t'.timeout_seconds = tool9W.timeout_seconds ∧
      t'.retry_attempts = tool9W.retry_attempts :=
  (saveConfig_load_roundtrip cfg9W {}).2 "echo_tool" tool9W (by decide)

/-! ### Batch-execution lemmas -/

/-- Without `fail_fast`, the completion loop is a plain fold writing each
completed item into its slot. -/
theorem collectCompleted_no_failFast (itemExec : Nat → Except PyExc ProcessResult)
    (toolName : String) (batchArgs : List (List String)) :
    ∀ (order : List Nat) (results : List (Option ProcessResult)),
      collectCompleted itemExec toolName batchArgs false order results =
        order.foldl
          (fun rs i => rs.set i (some (batchItemResult itemExec toolName batchArgs i)))
          results := by
  intro order
  induction order with
  | nil => intro results; rfl
  | cons i rest ih =>
      intro results
      simp only [collectCompleted, Bool.false_and, List.foldl_cons]
      rw [if_neg (by simp)]
      exact ih _

/-- Writing `some (f i)` at the positions of `order` preserves length. -/
theorem foldl_set_length {α : Type} (f : Nat → α) :
    ∀ (order : List Nat) (results : List (Option α)),
      (order.foldl (fun rs i => rs.set i (some (f i))) results).length =
        results.length := by
  intro order
  induction order with
  | nil => intro results; rfl
  | cons i rest ih =>
      intro results
      simp only [List.foldl_cons, ih, List.length_set]

/-- After writing `some (f i)` at every position of `order`, a slot holds
`some (f j)` exactly when `j ∈ order`, and its original value otherwise. -/
theorem foldl_set_getElem {α : Type} (f : Nat → α) :
    ∀ (order : List Nat) (results : List (Option α)) (j : Nat),
      j < results.length →
      (order.foldl (fun rs i => rs.set i (some (f i))) results)[j]? =
        if j ∈ order then some (some (f j)) else results[j]? := by
  intro order
  induction order with
  | nil => intro results j _; simp
  | cons i rest ih =>
      intro results j hj
      simp only [List.foldl_cons]
      rw [ih (results.set i (some (f i))) j (by simpa using hj)]
      by_cases hjr : j ∈ rest
      · simp [hjr, List.mem_cons]
      · by_cases hij : j = i
        · subst hij
          simp [hjr, List.mem_cons, List.getElem?_set_self', hj]
        · rw [List.getElem?_set_ne (fun h => hij h.symm)]
          simp [hjr, List.mem_cons, hij]

/-- A list of options all of which are `some (f j)` at position `j`
filter-maps to the image of `f` on the positions. -/
theorem filterMap_of_full {α : Type} :
    ∀ (l : List (Option α)) (f : Nat → α),
      (∀ j, j < l.length → l[j]? = some (some (f j))) →
      l.filterMap id = (List.range l.length).map f := by
  intro l
  induction l with
  | nil => intro f _; rfl
  | cons a l ih =>
      intro f h
      have h0 : a = some (f 0) := by
        have := h 0 (Nat.succ_pos _)
        simpa using this
      have hrest : ∀ j, j < l.length → l[j]? = some (some (f (j + 1))) := by
        intro j hj
        have := h (j + 1) (Nat.succ_lt_succ hj)
        simpa using this
      have htail := ih (fun j => f (j + 1)) hrest
      rw [List.length_cons, List.range_succ_eq_map, List.map_cons, List.map_map]
      subst h0
      show f 0 :: List.filterMap id l = f 0 :: (List.range l.length).map (f ∘ Nat.succ)
      rw [htail]
      rfl

/-- C3: for every list of M argument sets and every completion order (any
permutation of the items), `execute_batch` without `fail_fast` returns
exactly M results, the `i`-th of which is item `i`'s result: the returned
`ProcessResult` when the item's `execute_tool` call returned one, and a
synthesized failed result carrying return code -1 and the exception text in
stderr when the item raised. -/
theorem executeBatch_no_failFast (itemExec : Nat → Except PyExc ProcessResult)
    (toolName : String) (batchArgs : List (List String)) (order : List Nat)
    (hperm : order.Perm (List.range batchArgs.length)) :
    executeBatch itemExec toolName batchArgs order false =
      (List.range batchArgs.length).map (batchItemResult itemExec toolName batchArgs) ∧
    (executeBatch itemExec toolName batchArgs order false).length =
      batchArgs.length ∧
    (∀ i e, i < batchArgs.length → itemExec i = .error e →
      ∃ r, (executeBatch itemExec toolName batchArgs order false)[i]? = some r ∧
        r.return_code = -1 ∧ r.stderr = e.message) := by
  have hmem : ∀ j, j ∈ order ↔ j < batchArgs.length := by
    intro j
    rw [hperm.mem_iff, List.mem_range]
  have key : executeBatch itemExec toolName batchArgs order false =
      (List.range batchArgs.length).map (batchItemResult itemExec toolName batchArgs) := by
    unfold executeBatch
    rw [collectCompleted_no_failFast]
    have hlen : (order.foldl
        (fun rs i => rs.set i (some (batchItemResult itemExec toolName batchArgs i)))
        (List.replicate batchArgs.length none)).length = batchArgs.length := by
      rw [foldl_set_length, List.length_replicate]
    have hfull : ∀ j, j < (order.foldl
        (fun rs i => rs.set i (some (batchItemResult itemExec toolName batchArgs i)))
        (List.replicate batchArgs.length none)).length →
        (order.foldl
          (fun rs i => rs.set i (some (batchItemResult itemExec toolName batchArgs i)))
          (List.replicate batchArgs.length none))[j]? =
          some (some (batchItemResult itemExec toolName batchArgs j)) := by
      intro j hj
      rw [hlen] at hj
      rw [foldl_set_getElem _ order _ j (by simpa using hj)]
      simp [(hmem j).mpr hj]
    rw [filterMap_of_full _ _ hfull, hlen]
  refine ⟨key, ?_, ?_⟩
  · rw [key, List.length_map, List.length_range]
  · intro i e hi he
    refine ⟨batchItemResult itemExec toolName batchArgs i, ?_, ?_, ?_⟩
    · rw [key]
      rw [List.getElem?_map, List.getElem?_range hi]
      rfl
    · simp [batchItemResult, he]
    · simp [batchItemResult, he]

/-- C3 witness: a two-item batch completed in reverse order; item 0 succeeds
and item 1 raises, and the returned list still pairs position `i` with item
`i`. -/
theorem executeBatch_no_failFast_witness :
    executeBatch itemExecW "batch_tool" batchArgsW [1, 0] false =
      (List.range batchArgsW.length).map
        (batchItemResult itemExecW "batch_tool" batchArgsW) :=
  (executeBatch_no_failFast itemExecW "batch_tool" batchArgsW [1, 0] (by decide)).1

end PostCodeMon
